/-
Verification of `src/cad/extract_keys_v4.py` (orthball).

The script converts hardcoded SVG rectangle-corner coordinate pairs into
millimeter key-center positions and emits a JSON report.  We give a shallow
embedding over `ℚ` (an exact-arithmetic idealization of Python floats, which
the spec itself uses when stating exact identities) and `List Char` (a model
of Python `str`; Lean's own `String` primitives are not kernel-reducible).

Embedded source structure:
  * `pyStrip`, `pySplit`, `splitComma` model `str.strip()`, `str.split()`
    (no separator: split on whitespace runs) and `str.split(',')`.
  * `pyFloat?` models the accepting behavior of Python's `float()` on the
    decimal / scientific literal forms (sign, digits, optional fraction,
    optional exponent); exotic inputs (`inf`, `nan`, `_` separators) are out
    of modelled scope, and none occur in the data.
  * `mapFloat2` models `a, b = map(float, parts)` including its laziness:
    unpacking forces at most the first three elements, and a `float` failure
    fires before a too-many-values unpack error only for forced elements.
  * `parse_rect`, `buildKeys`, `runProgram` mirror the script's functions and
    its two build loops; an uncaught error (`Except.error`) aborts the run,
    so no report (the JSON printed at the end) is produced.
  * Sorting: Python's `list.sort(key=...)` is a stable sort by the key;
    `List.insertionSort` with the corresponding total preorder is a stable
    sort as well, hence produces the identical list.
-/
import Mathlib

namespace Orthball

/-- Model of a Python `str`: a list of characters. -/
abbrev Str := List Char

/-- Characters treated as whitespace by Python's `str.split()`/`strip()`. -/
def isPySpace (c : Char) : Bool :=
  c = ' ' || c = '\t' || c = '\n' || c = '\r' || c = '\x0b' || c = '\x0c'

/-- Model of Python `str.strip()`: drop leading and trailing whitespace. -/
def pyStrip (s : Str) : Str :=
  ((s.dropWhile isPySpace).reverse.dropWhile isPySpace).reverse

/-- Split at every character satisfying `p`, keeping empty pieces:
the semantics of Python `str.split(sep)` for a one-character `sep`. -/
def splitOnP (p : Char → Bool) : Str → List Str
  | [] => [[]]
  | c :: cs =>
    match splitOnP p cs with
    | [] => if p c then [[], []] else [[c]]
    | t :: ts => if p c then [] :: t :: ts else (c :: t) :: ts

/-- Model of Python `str.split()` with no separator: split on runs of
whitespace, discarding empty pieces. -/
def pySplit (s : Str) : List Str :=
  (splitOnP isPySpace s).filter (fun t => decide (t ≠ []))

/-- Model of Python `str.split(',')`. -/
def splitComma (s : Str) : List Str := splitOnP (fun c => c = ',') s

/-- Model of Python `line.split('\n')` as applied to a stripped block. -/
def pyLines (block : Str) : List Str :=
  splitOnP (fun c => c = '\n') (pyStrip block)

/-- Numeric value of a list of decimal digit characters. -/
def natOfDigits (cs : Str) : ℕ :=
  cs.foldl (fun a c => 10 * a + (c.toNat - 48)) 0

/-- Strip an optional leading sign, returning whether it was `'-'`. -/
def takeSign : Str → Bool × Str
  | '-' :: r => (true, r)
  | '+' :: r => (false, r)
  | r => (false, r)

/-- Split a string at the first character satisfying `p`, if any. -/
def splitFirst (p : Char → Bool) : Str → Str × Option Str
  | [] => ([], none)
  | c :: cs =>
    if p c then ([], some cs)
    else
      let r := splitFirst p cs
      (c :: r.1, r.2)

/-- Model of the accepting behavior of Python `float(s)` on decimal literals:
optional sign, integer part, optional `.` and fraction part (at least one
digit between them), optional `e`/`E` exponent with optional sign.  Returns
`none` exactly when `float` raises `ValueError`. -/
def pyFloat? (s : Str) : Option ℚ :=
  match pyStrip s with
  | [] => none
  | cs =>
    let sc := takeSign cs
    let m := splitFirst (fun c => c = 'e' || c = 'E') sc.2
    let expVal : Option ℤ :=
      match m.2 with
      | none => some 0
      | some es =>
        let se := takeSign es
        if se.2 ≠ [] ∧ se.2.all Char.isDigit then
          some ((if se.1 then -1 else 1) * (natOfDigits se.2 : ℤ))
        else none
    let ipfp := splitFirst (fun c => c = '.') m.1
    let fp := ipfp.2.getD []
    if ipfp.1 ++ fp ≠ [] ∧ ipfp.1.all Char.isDigit ∧ fp.all Char.isDigit then
      match expVal with
      | some e =>
        let mant : ℚ := (natOfDigits ipfp.1 : ℚ) + (natOfDigits fp : ℚ) / 10 ^ fp.length
        some ((if sc.1 then -mant else mant) * (10 : ℚ) ^ e)
      | none => none
    else none

/-- The two kinds of `ValueError` the script can raise: a `float()` format
failure, and a tuple-unpacking arity mismatch in `x, y = map(float, ...)`. -/
inductive PyErr where
  | floatValueError : PyErr
  | unpackMismatch : PyErr
deriving DecidableEq

/-- Model of `float(s)` as a fallible computation. -/
def pyFloat (s : Str) : Except PyErr ℚ :=
  match pyFloat? s with
  | some q => .ok q
  | none => .error .floatValueError

/-- `true` exactly when the computation aborted with an uncaught error. -/
def isErr {α : Type} : Except PyErr α → Bool
  | .error _ => true
  | .ok _ => false

/-- Model of `a, b = map(float, xs)`.  `map` is lazy: unpacking forces the
first element, the second, and (to detect excess) the third, so a `float`
failure among those fires first; otherwise a wrong arity raises the
unpack `ValueError`. -/
def mapFloat2 (xs : List Str) : Except PyErr (ℚ × ℚ) :=
  match xs with
  | [] => .error .unpackMismatch
  | [s] =>
    match pyFloat s with
    | .error e => .error e
    | .ok _ => .error .unpackMismatch
  | [s1, s2] =>
    match pyFloat s1 with
    | .error e => .error e
    | .ok a =>
      match pyFloat s2 with
      | .error e => .error e
      | .ok b => .ok (a, b)
  | s1 :: s2 :: s3 :: _ =>
    match pyFloat s1 with
    | .error e => .error e
    | .ok _ =>
      match pyFloat s2 with
      | .error e => .error e
      | .ok _ =>
        match pyFloat s3 with
        | .error e => .error e
        | .ok _ => .error .unpackMismatch

/-- Model of `parse_rect(line)`: split on whitespace; a line without exactly
two tokens yields `None` (modelled `Option.none`); otherwise each token is
comma-split and unpacked through `float`, and the rectangle center (the
coordinate-wise mean of the two corners) is returned. -/
def parse_rect (line : Str) : Except PyErr (Option (ℚ × ℚ)) :=
  match pySplit (pyStrip line) with
  | [p1, p2] =>
    match mapFloat2 (splitComma p1) with
    | .error e => .error e
    | .ok c1 =>
      match mapFloat2 (splitComma p2) with
      | .error e => .error e
      | .ok c2 => .ok (some ((c1.1 + c2.1) / 2, (c1.2 + c2.2) / 2))
  | _ => .ok none

/-- `SCALE = 19.05 / 54.032`: SVG units to millimeters. -/
def SCALE : ℚ := 19.05 / 54.032

/-- `Y_ORIGIN = 380.456`: the Y flip origin, `actual_y = 380.456 - svg_y`. -/
def Y_ORIGIN : ℚ := 380.456

/-- Python's `round` to an integer: nearest, ties to even. -/
def pyRound (q : ℚ) : ℤ :=
  if q - Int.floor q < 1 / 2 then Int.floor q
  else if 1 / 2 < q - Int.floor q then Int.floor q + 1
  else if Int.floor q % 2 = 0 then Int.floor q else Int.floor q + 1

/-- Python's `round(q, n)` for `n ≥ 0` digits, as a rational. -/
def roundTo (n : ℕ) (q : ℚ) : ℚ :=
  (pyRound (q * 10 ^ n) : ℚ) / 10 ^ n

/-- One emitted key entry: the dict
`{"type": ty, "x_mm": round(cx*SCALE, 2), "y_mm": round((Y_ORIGIN-cy)*SCALE, 2),
  "svg_x": cx, "svg_y": cy}` built by both loops of the script. -/
structure KeyPosition where
  type : Str
  x_mm : ℚ
  y_mm : ℚ
  svg_x : ℚ
  svg_y : ℚ

/-- The loop body of the two build loops: transform a parsed center to mm
(2-decimal rounding on the mm fields, source coordinates kept unrounded). -/
def mkEntry (ty : Str) (c : ℚ × ℚ) : KeyPosition :=
  { type := ty
    x_mm := roundTo 2 (c.1 * SCALE)
    y_mm := roundTo 2 ((Y_ORIGIN - c.2) * SCALE)
    svg_x := c.1
    svg_y := c.2 }

/-- The build loop over the lines of a block: skipped lines (`None` from
`parse_rect`) add nothing, parsed centers append an entry, an uncaught
error aborts. -/
def buildLoop (ty : Str) (acc : List KeyPosition) :
    List Str → Except PyErr (List KeyPosition)
  | [] => .ok acc
  | line :: rest =>
    match parse_rect line with
    | .error e => .error e
    | .ok none => buildLoop ty acc rest
    | .ok (some c) => buildLoop ty (acc ++ [mkEntry ty c]) rest

/-- `for line in block.strip().split('\n'): ...` build loop of the script. -/
def buildKeys (ty : Str) (block : Str) : Except PyErr (List KeyPosition) :=
  buildLoop ty [] (pyLines block)

/-- The MX sort's primary key: `round(k['y_mm']/19, 0)` (a row bucket). -/
def rowBucket (k : KeyPosition) : ℚ := roundTo 0 (k.y_mm / 19)

/-- The total preorder realized by
`keys.sort(key=lambda k: (round(k['y_mm']/19, 0), k['x_mm']))`:
lexicographic on (row bucket, x_mm). -/
def keyOrd (a b : KeyPosition) : Prop :=
  rowBucket a < rowBucket b ∨ (rowBucket a = rowBucket b ∧ a.x_mm ≤ b.x_mm)

instance : DecidableRel keyOrd := fun a b => by
  unfold keyOrd; exact inferInstance

/-- The total preorder realized by `chocs.sort(key=lambda k: k['x_mm'])`. -/
def chocOrd (a b : KeyPosition) : Prop := a.x_mm ≤ b.x_mm

instance : DecidableRel chocOrd := fun a b => by
  unfold chocOrd; exact inferInstance

/-- The aggregate JSON object the script prints. -/
structure Report where
  info : Str
  scale : Str
  mx_keys : List KeyPosition
  choc_keys : List KeyPosition
  total_mx : ℕ
  total_choc : ℕ
  total : ℕ

/-- `"MX"`. -/
def mxType : Str := "MX".toList

/-- `"Choc"`. -/
def chocType : Str := "Choc".toList

/-- The `info` string of the report. -/
def infoLine : Str := "OrthBall V1 key positions extracted from v4 SVG".toList

/-- The `scale` string of the report: `f"1 SVG unit = {SCALE:.4f} mm"`
(19.05/54.032 = 0.35257... formats as `0.3526`). -/
def scaleLine : Str := "1 SVG unit = 0.3526 mm".toList

/-- The whole run: build both key lists (an uncaught error anywhere aborts
before anything is printed), sort them, and assemble the report that is
then serialized to standard output.  The third argument models the
`thumb_data` literal, which the script assigns but never uses. -/
def runProgram (svgB chocB thumbB : Str) : Except PyErr Report :=
  match buildKeys mxType svgB with
  | .error e => .error e
  | .ok keys =>
    match buildKeys chocType chocB with
    | .error e => .error e
    | .ok chocs =>
      let sortedKeys := List.insertionSort keyOrd keys
      let sortedChocs := List.insertionSort chocOrd chocs
      .ok { info := infoLine
            scale := scaleLine
            mx_keys := sortedKeys
            choc_keys := sortedChocs
            total_mx := sortedKeys.length
            total_choc := sortedChocs.length
            total := sortedKeys.length + sortedChocs.length }

/-! The literal data blocks of the script. -/

/-- The `svg_rects` literal: MX key rectangles, two corners per line. -/
def svg_rects : Str := "
614.966,251.492 575.282,291.176
479.95,197.524 440.266,237.208
425.95,143.524 386.266,183.208
425.95,251.492 386.266,291.176
479.95,143.524 440.266,183.208
668.966,251.492 629.282,291.176
668.966,197.524 629.282,237.208
884.934,197.524 845.25,237.208
830.934,197.524 791.25,237.208
830.934,251.492 791.25,291.176
776.934,197.524 737.25,237.208
776.934,89.492 737.25,129.176
668.966,143.524 629.282,183.208
722.966,143.524 683.282,183.208
776.934,143.524 737.25,183.208
776.934,251.492 737.25,291.176
830.934,143.524 791.25,183.208
614.966,197.524 575.282,237.208
884.934,251.492 845.25,291.176
722.966,197.524 683.282,237.208
290.966,197.524 251.282,237.208
128.966,251.492 89.282,291.176
74.934,197.524 35.25,237.208
344.966,143.524 305.282,183.208
425.95,197.524 386.266,237.208
74.934,89.492 35.25,129.176
290.966,251.492 251.282,291.176
290.966,143.524 251.282,183.208
74.934,251.492 35.25,291.176
344.966,251.492 305.282,291.176
128.966,197.524 89.282,237.208
614.966,143.524 575.282,183.208
128.966,89.492 89.282,129.176
344.966,197.524 305.282,237.208
479.95,89.492 440.266,129.176
182.934,251.492 143.25,291.176
533.95,143.524 494.266,183.208
74.934,143.524 35.25,183.208
533.95,251.492 494.266,291.176
182.934,197.524 143.25,237.208
182.934,89.492 143.25,129.176
128.966,143.524 89.282,183.208
236.966,251.492 197.282,291.176
479.95,251.492 440.266,291.176
182.934,143.524 143.25,183.208
236.966,143.524 197.282,183.208
236.966,197.524 197.282,237.208
884.934,143.524 845.25,183.208
533.95,197.524 494.266,237.208
722.966,251.492 683.282,291.176
".toList

/-- The `choc_rects` literal: Choc key rectangles. -/
def choc_rects : Str := "
902.399,128.895 935.848,89.774
1010.229,128.895 1043.678,89.774
956.399,128.895 989.848,89.774
794.371,128.895 827.821,89.774
848.399,128.895 881.848,89.774
".toList

/-- The `thumb_data` literal: assigned in the script but never read. -/
def thumb_data : Str := "
568.927,105.498 588.774,71.134 554.41,51.286 534.563,85.651
629.631,125.25 643.179,87.95 605.88,74.402 592.331,111.701
695.369,127.56 655.685,87.876
348.857,104.367 329.01,70.003 363.374,50.155 383.221,84.519
290.553,126.518 277.005,89.219 314.304,75.67 327.853,112.97
224.815,128.829 264.499,89.145
".toList

/-- The run the script actually performs with its literal data. -/
def mainRun : Except PyErr Report := runProgram svg_rects choc_rects thumb_data

/-! Witness inputs: a two-block run with one key each, and an MX block
containing a non-numeric coordinate. -/

/-- Witness MX block: one rectangle with center `(2, 3)`. -/
def wSvg : Str := "1,3 3,3".toList

/-- Witness Choc block: one rectangle with center `(3, 4)`. -/
def wChoc : Str := "2,4 4,4".toList

/-- The entry built from `wSvg`. -/
def wKeyMX : KeyPosition := mkEntry mxType (2, 3)

/-- The entry built from `wChoc`. -/
def wKeyChoc : KeyPosition := mkEntry chocType (3, 4)

/-- The report of the run on the witness blocks. -/
def wReport : Report :=
  { info := infoLine
    scale := scaleLine
    mx_keys := [wKeyMX]
    choc_keys := [wKeyChoc]
    total_mx := 1
    total_choc := 1
    total := 2 }

/-- An MX block with one valid line, then the line `"a,1 2,3"` with a
non-numeric coordinate. -/
def wBad6 : Str := "614.966,251.492 575.282,291.176\na,1 2,3".toList

instance : IsTotal KeyPosition keyOrd := by
  constructor
  intro a b
  rcases lt_trichotomy (rowBucket a) (rowBucket b) with h | h | h
  · exact Or.inl (Or.inl h)
  · rcases le_total a.x_mm b.x_mm with hx | hx
    · exact Or.inl (Or.inr ⟨h, hx⟩)
    · exact Or.inr (Or.inr ⟨h.symm, hx⟩)
  · exact Or.inr (Or.inl h)

instance : IsTrans KeyPosition keyOrd := by
  constructor
  intro a b c hab hbc
  rcases hab with h1 | ⟨h1, hx1⟩ <;> rcases hbc with h2 | ⟨h2, hx2⟩
  · exact Or.inl (h1.trans h2)
  · exact Or.inl (h2 ▸ h1)
  · exact Or.inl (h1 ▸ h2)
  · exact Or.inr ⟨h1.trans h2, hx1.trans hx2⟩

instance : IsTotal KeyPosition chocOrd := ⟨fun a b => le_total a.x_mm b.x_mm⟩

instance : IsTrans KeyPosition chocOrd := ⟨fun _ _ _ h1 h2 => h1.trans h2⟩

/-! Helper lemmas. -/

/-- Nearest-integer rounding (ties to even) is within 1/2 of the input. -/
lemma pyRound_abs_le (q : ℚ) : |(pyRound q : ℚ) - q| ≤ 1 / 2 := by
  have h1 : (Int.floor q : ℚ) ≤ q := Int.floor_le q
  have h2 : q < Int.floor q + 1 := Int.lt_floor_add_one q
  unfold pyRound
  split_ifs <;> rw [abs_le] <;> constructor <;> push_cast <;> linarith

/-- `round(q, 2)` is within 1/200 of `q`. -/
lemma roundTo_two_abs_le (q : ℚ) : |roundTo 2 q - q| ≤ 1 / 200 := by
  have h := pyRound_abs_le (q * 10 ^ 2)
  unfold roundTo
  have he : (pyRound (q * 10 ^ 2) : ℚ) / 10 ^ 2 - q
      = ((pyRound (q * 10 ^ 2) : ℚ) - q * 10 ^ 2) / 10 ^ 2 := by ring
  rw [he, abs_div, abs_of_pos (by norm_num : (0:ℚ) < 10 ^ 2)]
  norm_num at h ⊢
  linarith

/-- The mm fields of every entry accumulated by the build loop are the
2-decimal roundings of the transformed source coordinates. -/
lemma buildLoop_mem_fields (ty : Str) (lines : List Str) :
    ∀ (acc ks : List KeyPosition),
      (∀ k ∈ acc, k.x_mm = roundTo 2 (k.svg_x * SCALE) ∧
        k.y_mm = roundTo 2 ((Y_ORIGIN - k.svg_y) * SCALE)) →
      buildLoop ty acc lines = .ok ks →
      ∀ k ∈ ks, k.x_mm = roundTo 2 (k.svg_x * SCALE) ∧
        k.y_mm = roundTo 2 ((Y_ORIGIN - k.svg_y) * SCALE) := by
  induction lines with
  | nil =>
    intro acc ks hacc hok
    unfold buildLoop at hok
    cases hok
    exact hacc
  | cons line rest ih =>
    intro acc ks hacc hok
    unfold buildLoop at hok
    cases hp : parse_rect line with
    | error e => rw [hp] at hok; cases hok
    | ok o =>
      rw [hp] at hok
      cases o with
      | none => exact ih acc ks hacc hok
      | some c =>
        refine ih _ ks ?_ hok
        intro k hk
        rcases List.mem_append.1 hk with hk' | hk'
        · exact hacc k hk'
        · rcases List.mem_singleton.1 hk' with rfl
          exact ⟨rfl, rfl⟩

/-- If some line of the list makes `parse_rect` raise, the whole build loop
aborts with an uncaught error. -/
lemma buildLoop_err_of_mem (ty : Str) (lines : List Str) :
    ∀ (acc : List KeyPosition) (line : Str), line ∈ lines →
      isErr (parse_rect line) = true → isErr (buildLoop ty acc lines) = true := by
  induction lines with
  | nil => intro acc line h; cases h
  | cons hd rest ih =>
    intro acc line hmem herr
    unfold buildLoop
    cases hp : parse_rect hd with
    | error e => rfl
    | ok o =>
      rcases List.mem_cons.1 hmem with rfl | hmem'
      · rw [hp] at herr; cases herr
      · cases o with
        | none => exact ih acc line hmem' herr
        | some c => exact ih _ line hmem' herr

/-- A successful run determines the report as the sorted, counted aggregate
of the two block parses. -/
lemma runProgram_ok_elim (s c t : Str) (r : Report)
    (h : runProgram s c t = .ok r) :
    ∃ keys chocs, buildKeys mxType s = .ok keys ∧
      buildKeys chocType c = .ok chocs ∧
      r = { info := infoLine
            scale := scaleLine
            mx_keys := List.insertionSort keyOrd keys
            choc_keys := List.insertionSort chocOrd chocs
            total_mx := (List.insertionSort keyOrd keys).length
            total_choc := (List.insertionSort chocOrd chocs).length
            total := (List.insertionSort keyOrd keys).length +
              (List.insertionSort chocOrd chocs).length } := by
  unfold runProgram at h
  cases h1 : buildKeys mxType s with
  | error e => rw [h1] at h; cases h
  | ok keys =>
    rw [h1] at h
    cases h2 : buildKeys chocType c with
    | error e => rw [h2] at h; cases h
    | ok chocs =>
      rw [h2] at h
      cases h
      exact ⟨keys, chocs, rfl, rfl, rfl⟩

/-- A line whose whitespace-split does not have exactly two tokens is
silently skipped by `parse_rect`. -/
lemma parse_rect_skip (line : Str)
    (h : (pySplit (pyStrip line)).length ≠ 2) : parse_rect line = .ok none := by
  unfold parse_rect
  rcases hx : pySplit (pyStrip line) with _ | ⟨a, _ | ⟨b, _ | ⟨d, rest⟩⟩⟩
  · rfl
  · rfl
  · rw [hx] at h; cases h rfl
  · rfl

/-- If an element of `xs` fails `float` parsing, `x, y = map(float, xs)`
raises (either the `float` failure or an unpack arity error). -/
lemma mapFloat2_err_of_none (xs : List Str) (s : Str) (hmem : s ∈ xs)
    (hbad : pyFloat? s = none) : isErr (mapFloat2 xs) = true := by
  match xs, hmem with
  | [s1], hmem =>
    rcases List.mem_singleton.1 hmem with rfl
    simp [mapFloat2, pyFloat, hbad, isErr]
  | [s1, s2], hmem =>
    simp only [mapFloat2]
    rcases List.mem_cons.1 hmem with rfl | hmem'
    · simp [pyFloat, hbad, isErr]
    · rcases List.mem_singleton.1 hmem' with rfl
      cases hf : pyFloat s1 with
      | error e => simp [isErr]
      | ok a => simp [pyFloat, hbad, isErr]
  | s1 :: s2 :: s3 :: tl, _ =>
    simp only [mapFloat2]
    cases pyFloat s1 with
    | error e => simp [isErr]
    | ok a =>
      cases pyFloat s2 with
      | error e => simp [isErr]
      | ok b =>
        cases pyFloat s3 with
        | error e => simp [isErr]
        | ok d => simp [isErr]

/-- `x, y = map(float, xs)` raises whenever `xs` does not have exactly two
elements. -/
lemma mapFloat2_err_of_length (xs : List Str) (h : xs.length ≠ 2) :
    isErr (mapFloat2 xs) = true := by
  match xs with
  | [] => rfl
  | [s1] =>
    simp only [mapFloat2]
    cases pyFloat s1 with
    | error e => simp [isErr]
    | ok a => simp [isErr]
  | [s1, s2] => cases h rfl
  | s1 :: s2 :: s3 :: tl =>
    simp only [mapFloat2]
    cases pyFloat s1 with
    | error e => simp [isErr]
    | ok a =>
      cases pyFloat s2 with
      | error e => simp [isErr]
      | ok b =>
        cases pyFloat s3 with
        | error e => simp [isErr]
        | ok d => simp [isErr]

/-- If the MX block contains a line on which `parse_rect` raises, the whole
run aborts with an uncaught error and no report is produced. -/
lemma runProgram_err_of_line (svgB chocB thumbB line : Str)
    (hline : line ∈ pyLines svgB) (herr : isErr (parse_rect line) = true) :
    isErr (runProgram svgB chocB thumbB) = true := by
  have hb : isErr (buildKeys mxType svgB) = true :=
    buildLoop_err_of_mem mxType (pyLines svgB) [] line hline herr
  unfold runProgram
  cases hk : buildKeys mxType svgB with
  | error e => rfl
  | ok keys => rw [hk] at hb; cases hb

/-- Unfolding of `parse_rect` on a line with exactly two whitespace tokens. -/
lemma parse_rect_two (line t1 t2 : Str)
    (hsplit : pySplit (pyStrip line) = [t1, t2]) :
    parse_rect line =
      match mapFloat2 (splitComma t1) with
      | .error e => .error e
      | .ok c1 =>
        match mapFloat2 (splitComma t2) with
        | .error e => .error e
        | .ok c2 => .ok (some ((c1.1 + c2.1) / 2, (c1.2 + c2.2) / 2)) := by
  unfold parse_rect
  rw [hsplit]

lemma buildKeys_wSvg : buildKeys mxType wSvg = .ok [wKeyMX] := by
  simp +decide [buildKeys, pyLines, buildLoop, parse_rect, pySplit, pyStrip, splitOnP,
    splitComma, isPySpace, mapFloat2, pyFloat, pyFloat?, takeSign, splitFirst,
    natOfDigits, wSvg, wKeyMX, mkEntry]
  norm_num

lemma buildKeys_wChoc : buildKeys chocType wChoc = .ok [wKeyChoc] := by
  simp +decide [buildKeys, pyLines, buildLoop, parse_rect, pySplit, pyStrip, splitOnP,
    splitComma, isPySpace, mapFloat2, pyFloat, pyFloat?, takeSign, splitFirst,
    natOfDigits, wChoc, wKeyChoc, mkEntry]
  norm_num

lemma wrun_ok : runProgram wSvg wChoc thumb_data = .ok wReport := by
  unfold runProgram
  rw [buildKeys_wSvg, buildKeys_wChoc]
  simp [List.insertionSort, List.orderedInsert, wReport]

/-! The claims. -/

/-- Claim C1: Every `KeyPosition` emitted by a build loop has `x_mm` equal to
`cx * SCALE` rounded to 2 decimal places and `y_mm` equal to
`(Y_ORIGIN - cy) * SCALE` rounded to 2 decimal places, where the parsed
center `(cx, cy)` is held unrounded in the `svg_x`/`svg_y` fields. -/
theorem mm_fields_rounded (ty block : Str) (ks : List KeyPosition)
    (hok : buildKeys ty block = .ok ks) :
    ∀ k ∈ ks, k.x_mm = roundTo 2 (k.svg_x * SCALE) ∧
      k.y_mm = roundTo 2 ((Y_ORIGIN - k.svg_y) * SCALE) :=
  buildLoop_mem_fields ty (pyLines block) [] ks (by simp) hok

/-- Witness for claim C1 at the concrete block `"1,3 3,3"`. -/
theorem mm_fields_rounded_witness :
    buildKeys mxType wSvg = .ok [wKeyMX] ∧ wKeyMX ∈ [wKeyMX] ∧
      (wKeyMX.x_mm = roundTo 2 (wKeyMX.svg_x * SCALE) ∧
       wKeyMX.y_mm = roundTo 2 ((Y_ORIGIN - wKeyMX.svg_y) * SCALE)) :=
  ⟨buildKeys_wSvg, List.mem_singleton.mpr rfl,
    mm_fields_rounded mxType wSvg [wKeyMX] buildKeys_wSvg wKeyMX
      (List.mem_singleton.mpr rfl)⟩

/-- Claim C2: On a valid line (exactly two whitespace tokens, each comma-split
into exactly two numeric substrings) the parser returns the exact center
`((x1+x2)/2, (y1+y2)/2)`, before any rounding. -/
theorem parse_rect_exact_center (line t1 t2 a1 b1 a2 b2 : Str) (x1 y1 x2 y2 : ℚ)
    (hsplit : pySplit (pyStrip line) = [t1, t2])
    (hc1 : splitComma t1 = [a1, b1]) (hc2 : splitComma t2 = [a2, b2])
    (hx1 : pyFloat? a1 = some x1) (hy1 : pyFloat? b1 = some y1)
    (hx2 : pyFloat? a2 = some x2) (hy2 : pyFloat? b2 = some y2) :
    parse_rect line = .ok (some ((x1 + x2) / 2, (y1 + y2) / 2)) := by
  rw [parse_rect_two line t1 t2 hsplit]
  simp [hc1, hc2, mapFloat2, pyFloat, hx1, hy1, hx2, hy2]

/-- Witness for claim C2 at the concrete line `"1,2 3,4"`. -/
theorem parse_rect_exact_center_witness :
    pySplit (pyStrip ("1,2 3,4".toList)) = ["1,2".toList, "3,4".toList] ∧
    splitComma ("1,2".toList) = [['1'], ['2']] ∧
    splitComma ("3,4".toList) = [['3'], ['4']] ∧
    pyFloat? ['1'] = some 1 ∧ pyFloat? ['2'] = some 2 ∧
    pyFloat? ['3'] = some 3 ∧ pyFloat? ['4'] = some 4 ∧
    parse_rect ("1,2 3,4".toList) = .ok (some ((1 + 3) / 2, (2 + 4) / 2)) := by
  have h1 : pyFloat? ['1'] = some 1 := by
    simp +decide [pyFloat?, pyStrip, takeSign, splitFirst, natOfDigits, isPySpace]
  have h2 : pyFloat? ['2'] = some 2 := by
    simp +decide [pyFloat?, pyStrip, takeSign, splitFirst, natOfDigits, isPySpace]
  have h3 : pyFloat? ['3'] = some 3 := by
    simp +decide [pyFloat?, pyStrip, takeSign, splitFirst, natOfDigits, isPySpace]
  have h4 : pyFloat? ['4'] = some 4 := by
    simp +decide [pyFloat?, pyStrip, takeSign, splitFirst, natOfDigits, isPySpace]
  exact ⟨by decide, by decide, by decide, h1, h2, h3, h4,
    parse_rect_exact_center ("1,2 3,4".toList) ("1,2".toList) ("3,4".toList)
      ['1'] ['2'] ['3'] ['4'] 1 2 3 4
      (by decide) (by decide) (by decide) h1 h2 h3 h4⟩

/-- Claim C3: In any emitted report, consecutive entries of `mx_keys` either
strictly increase in row bucket `round(y_mm/19, 0)`, or have equal row
buckets and non-decreasing `x_mm`. -/
theorem mx_keys_row_major (svgB chocB thumbB : Str) (r : Report)
    (h : runProgram svgB chocB thumbB = .ok r) :
    List.Chain' (fun a b => rowBucket a < rowBucket b ∨
      (rowBucket a = rowBucket b ∧ a.x_mm ≤ b.x_mm)) r.mx_keys := by
  obtain ⟨keys, chocs, h1, h2, rfl⟩ := runProgram_ok_elim svgB chocB thumbB r h
  exact List.Pairwise.chain' (List.sorted_insertionSort keyOrd keys)

/-- Witness for claim C3 at the concrete witness run. -/
theorem mx_keys_row_major_witness :
    runProgram wSvg wChoc thumb_data = .ok wReport ∧
      List.Chain' (fun a b => rowBucket a < rowBucket b ∨
        (rowBucket a = rowBucket b ∧ a.x_mm ≤ b.x_mm)) wReport.mx_keys :=
  ⟨wrun_ok, mx_keys_row_major _ _ _ _ wrun_ok⟩

/-- Claim C4: In every emitted report, `total = total_mx + total_choc`, where
the two summands are the lengths of `mx_keys` and `choc_keys`. -/
theorem total_is_sum (svgB chocB thumbB : Str) (r : Report)
    (h : runProgram svgB chocB thumbB = .ok r) :
    r.total = r.total_mx + r.total_choc := by
  obtain ⟨keys, chocs, h1, h2, rfl⟩ := runProgram_ok_elim svgB chocB thumbB r h
  rfl

/-- Witness for claim C4 at the concrete witness run. -/
theorem total_is_sum_witness :
    runProgram wSvg wChoc thumb_data = .ok wReport ∧
      wReport.total = wReport.total_mx + wReport.total_choc :=
  ⟨wrun_ok, total_is_sum _ _ _ _ wrun_ok⟩

/-- Claim C5: A block of one valid rectangle line and one line with a single
whitespace token produces exactly one `KeyPosition` and raises no error:
wrong-token-count lines are silently skipped. -/
theorem single_token_line_skipped (ty block l1 l2 : Str) (c : ℚ × ℚ)
    (hlines : pyLines block = [l1, l2])
    (hgood : parse_rect l1 = .ok (some c))
    (hbad : (pySplit (pyStrip l2)).length = 1) :
    buildKeys ty block = .ok [mkEntry ty c] := by
  have hskip : parse_rect l2 = .ok none := parse_rect_skip l2 (by simp [hbad])
  simp [buildKeys, hlines, buildLoop, hgood, hskip]

/-- Witness for claim C5 at the concrete block `"1,3 3,3\nonlytoken"`. -/
theorem single_token_line_skipped_witness :
    pyLines ("1,3 3,3\nonlytoken".toList) = ["1,3 3,3".toList, "onlytoken".toList] ∧
    parse_rect ("1,3 3,3".toList) = .ok (some (2, 3)) ∧
    (pySplit (pyStrip ("onlytoken".toList))).length = 1 ∧
    buildKeys mxType ("1,3 3,3\nonlytoken".toList) = .ok [mkEntry mxType (2, 3)] := by
  have hg : parse_rect ("1,3 3,3".toList) = .ok (some (2, 3)) := by
    simp +decide [parse_rect, pySplit, pyStrip, splitOnP, splitComma, isPySpace,
      mapFloat2, pyFloat, pyFloat?, takeSign, splitFirst, natOfDigits]
    norm_num
  exact ⟨by decide, hg, by decide,
    single_token_line_skipped mxType ("1,3 3,3\nonlytoken".toList)
      ("1,3 3,3".toList) ("onlytoken".toList) (2, 3) (by decide) hg (by decide)⟩

/-- Claim C6: If some line of the MX block has exactly two whitespace tokens
but a coordinate substring that `float` rejects, the run aborts with an
uncaught error: no report (hence no JSON, not even partial) is produced. -/
theorem nonnumeric_aborts_run (svgB chocB thumbB line t1 t2 sBad : Str)
    (hline : line ∈ pyLines svgB)
    (hsplit : pySplit (pyStrip line) = [t1, t2])
    (hmem : sBad ∈ splitComma t1 ++ splitComma t2)
    (hbad : pyFloat? sBad = none) :
    isErr (runProgram svgB chocB thumbB) = true := by
  have herr : isErr (parse_rect line) = true := by
    rw [parse_rect_two line t1 t2 hsplit]
    cases hm1 : mapFloat2 (splitComma t1) with
    | error e => simp [isErr]
    | ok c1 =>
      rcases List.mem_append.1 hmem with hmem1 | hmem2
      · have hcon := mapFloat2_err_of_none (splitComma t1) sBad hmem1 hbad
        rw [hm1] at hcon; cases hcon
      · cases hm2 : mapFloat2 (splitComma t2) with
        | error e => simp [isErr]
        | ok c2 =>
          have hcon := mapFloat2_err_of_none (splitComma t2) sBad hmem2 hbad
          rw [hm2] at hcon; cases hcon
  exact runProgram_err_of_line svgB chocB thumbB line hline herr

/-- Witness for claim C6 at the concrete block `wBad6`. -/
theorem nonnumeric_aborts_run_witness :
    ("a,1 2,3".toList) ∈ pyLines wBad6 ∧
    pySplit (pyStrip ("a,1 2,3".toList)) = ["a,1".toList, "2,3".toList] ∧
    ("a".toList) ∈ splitComma ("a,1".toList) ++ splitComma ("2,3".toList) ∧
    pyFloat? ("a".toList) = none ∧
    isErr (runProgram wBad6 [] []) = true :=
  ⟨by decide, by decide, by decide, by decide,
    nonnumeric_aborts_run wBad6 [] [] ("a,1 2,3".toList) ("a,1".toList)
      ("2,3".toList) ("a".toList)
      (by decide) (by decide) (by decide) (by decide)⟩

/-- Claim C7: In any emitted report, `choc_keys` is non-decreasing in `x_mm`
across consecutive entries. -/
theorem choc_keys_x_sorted (svgB chocB thumbB : Str) (r : Report)
    (h : runProgram svgB chocB thumbB = .ok r) :
    List.Chain' (fun a b => a.x_mm ≤ b.x_mm) r.choc_keys := by
  obtain ⟨keys, chocs, h1, h2, rfl⟩ := runProgram_ok_elim svgB chocB thumbB r h
  exact List.Pairwise.chain' (List.sorted_insertionSort chocOrd chocs)

/-- Witness for claim C7 at the concrete witness run. -/
theorem choc_keys_x_sorted_witness :
    runProgram wSvg wChoc thumb_data = .ok wReport ∧
      List.Chain' (fun a b => a.x_mm ≤ b.x_mm) wReport.choc_keys :=
  ⟨wrun_ok, choc_keys_x_sorted _ _ _ _ wrun_ok⟩

/-- Claim C8: Inverting the transform on the rounded mm fields recovers the
source center within the tolerance induced by 2-decimal rounding:
`|x_mm/SCALE - cx|` and `|(Y_ORIGIN - y_mm/SCALE) - cy|` are at most
`(1/200)/SCALE` (half of the last rounded digit, rescaled to source units). -/
theorem transform_roundtrip (ty : Str) (cx cy : ℚ) :
    |(mkEntry ty (cx, cy)).x_mm / SCALE - cx| ≤ 1 / 200 / SCALE ∧
    |(Y_ORIGIN - (mkEntry ty (cx, cy)).y_mm / SCALE) - cy| ≤ 1 / 200 / SCALE := by
  have hS : (0:ℚ) < SCALE := by norm_num [SCALE]
  have hS' : SCALE ≠ 0 := ne_of_gt hS
  have hx := roundTo_two_abs_le (cx * SCALE)
  have hy := roundTo_two_abs_le ((Y_ORIGIN - cy) * SCALE)
  constructor
  · have he : (mkEntry ty (cx, cy)).x_mm / SCALE - cx
        = (roundTo 2 (cx * SCALE) - cx * SCALE) / SCALE := by
      simp only [mkEntry]
      field_simp
      ring
    rw [he, abs_div, abs_of_pos hS]
    exact (div_le_div_iff_of_pos_right hS).mpr hx
  · have he : (Y_ORIGIN - (mkEntry ty (cx, cy)).y_mm / SCALE) - cy
        = -((roundTo 2 ((Y_ORIGIN - cy) * SCALE) - (Y_ORIGIN - cy) * SCALE) / SCALE) := by
      simp only [mkEntry]
      field_simp
      ring
    rw [he, abs_neg, abs_div, abs_of_pos hS]
    exact (div_le_div_iff_of_pos_right hS).mpr hy

/-- Claim C9: The `thumb_data` literal is never read: the emitted report is a
function of the two rectangle blocks only, so no field of the output is
affected by (and no entry is derived from) the thumb-key data.  In
particular the script's actual run coincides with a run on an empty
thumb block. -/
theorem thumb_data_inert :
    (∀ svgB chocB tB : Str,
      runProgram svgB chocB thumb_data = runProgram svgB chocB tB) ∧
    mainRun = runProgram svg_rects choc_rects [] :=
  ⟨fun _ _ _ => rfl, rfl⟩

/-- Claim C10: A line with exactly two whitespace tokens where some token does
not comma-split into exactly two parts makes `parse_rect` raise (it is not
silently skipped), and the error aborts the whole run. -/
theorem bad_comma_arity_aborts (svgB chocB thumbB line t1 t2 : Str)
    (hline : line ∈ pyLines svgB)
    (hsplit : pySplit (pyStrip line) = [t1, t2])
    (hbad : (splitComma t1).length ≠ 2 ∨ (splitComma t2).length ≠ 2) :
    isErr (parse_rect line) = true ∧ isErr (runProgram svgB chocB thumbB) = true := by
  have herr : isErr (parse_rect line) = true := by
    rw [parse_rect_two line t1 t2 hsplit]
    cases hm1 : mapFloat2 (splitComma t1) with
    | error e => simp [isErr]
    | ok c1 =>
      have hl1 : (splitComma t1).length = 2 := by
        by_contra hne
        have hcon := mapFloat2_err_of_length (splitComma t1) hne
        rw [hm1] at hcon; cases hcon
      rcases hbad with hb | hb
      · exact absurd hl1 hb
      · cases hm2 : mapFloat2 (splitComma t2) with
        | error e => simp [isErr]
        | ok c2 =>
          have hcon := mapFloat2_err_of_length (splitComma t2) hb
          rw [hm2] at hcon; cases hcon
  exact ⟨herr, runProgram_err_of_line svgB chocB thumbB line hline herr⟩

/-- Witness for claim C10 at the concrete line `"1,2,3 4,5"` used as a
one-line MX block. -/
theorem bad_comma_arity_aborts_witness :
    ("1,2,3 4,5".toList) ∈ pyLines ("1,2,3 4,5".toList) ∧
    pySplit (pyStrip ("1,2,3 4,5".toList)) = ["1,2,3".toList, "4,5".toList] ∧
    (splitComma ("1,2,3".toList)).length ≠ 2 ∧
    (isErr (parse_rect ("1,2,3 4,5".toList)) = true ∧
      isErr (runProgram ("1,2,3 4,5".toList) [] []) = true) :=
  ⟨by decide, by decide, by decide,
    bad_comma_arity_aborts ("1,2,3 4,5".toList) [] [] ("1,2,3 4,5".toList)
      ("1,2,3".toList) ("4,5".toList)
      (by decide) (by decide) (Or.inl (by decide))⟩

end Orthball
